import Mathlib

/-!
Verification development for the Galaxy Sentinel monitoring agent.

Shallow embedding of the repository's core components:
  * `checks.py`   — the Tier 0 alert aggregation (`run_all_checks`);
  * `runner.py`   — the scheduler loop's Tier 0 routing (`run_tier0`) and
                    the daily-digest bookkeeping (`digestTick`);
  * `slack.py`    — the notification sink (`send_slack_alert`);
  * `investigate.py` — the Tier 2 tool-use investigation loop
                    (`_execute_tool`, `investigate_alerts`).

External collaborators (metrics store, log store, cluster API, the HTTP
transport to the Slack webhook, and the LLM backend) are modelled as
abstract environments: each collaborator call is a function that either
returns its formatted text or fails (`Except String _` standing for a
raised Python exception).  Machine behaviour that the source leaves to
Python (string slicing `[:n]`, `str.upper`, dict lookup) is mapped to the
corresponding total Lean operation (`String.take`, `String.toUpper`,
`List.lookup`).
-/

namespace GalaxySentinel

/-- An alert produced by a Tier 0 check (`checks.py`, dataclass `Alert`):
check name, severity (`"critical"` or `"warning"` for checks; the Slack
sink also accepts `"info"`/`"resolved"`), free-text message. -/
structure Alert where
  check_name : String
  severity : String
  message : String
deriving Repr, DecidableEq

/-- The synthetic alert `run_all_checks` appends when a check raises
(`checks.py` lines 358-364). -/
def syntheticAlert (checkName : String) : Alert :=
  { check_name := "Check Error: " ++ checkName
  , severity := "warning"
  , message := "Check " ++ checkName ++ " raised an exception" }

/-- `run_all_checks` (`checks.py` lines 351-365).  A check is modelled by
its name together with its outcome: `Except.ok alerts` when the coroutine
returns, `Except.error e` when it raises.  The loop extends the
accumulator with the check's alerts, or appends one synthetic alert when
the check raised; no failure escapes the loop. -/
def run_all_checks (checks : List (String × Except String (List Alert))) : List Alert :=
  checks.foldl
    (fun all_alerts c =>
      match c.2 with
      | Except.ok alerts => all_alerts ++ alerts
      | Except.error _ => all_alerts ++ [syntheticAlert c.1])
    []

/-- The per-check contribution to the aggregate: its own alerts on
success, the one synthetic alert on failure. -/
def checkContribution (c : String × Except String (List Alert)) : List Alert :=
  match c.2 with
  | Except.ok alerts => alerts
  | Except.error _ => [syntheticAlert c.1]

/-! ## Scheduler digest bookkeeping (`runner.py` lines 79-107)

The scheduler's `main` keeps `last_digest_date` (initially `None`) and
`digest_attempts` (initially `0`) with `max_digest_attempts = 3`.  Dates
are modelled as naturals (any type with decidable equality would do);
hours as naturals. -/

/-- The digest bookkeeping state owned by the scheduler loop. -/
structure DigestState where
  lastDigestDate : Option Nat
  digestAttempts : Nat
deriving Repr, DecidableEq

/-- `max_digest_attempts = 3` (`runner.py` line 81). -/
def max_digest_attempts : Nat := 3

/-- One scheduler tick's digest branch (`runner.py` lines 90-107).
`date`/`hour` are the tick's wall-clock reading, `outcome` whether
`run_tier1_digest` returns normally (`true`) or raises (`false`).
Returns the updated state and whether a digest attempt was made
(i.e. whether `run_tier1_digest` was entered). -/
def digestTick (digestHour : Nat) (s : DigestState) (date hour : Nat)
    (outcome : Bool) : DigestState × Bool :=
  if hour = digestHour ∧ s.lastDigestDate ≠ some date then
    if s.digestAttempts < max_digest_attempts then
      if outcome then
        (⟨some date, 0⟩, true)
      else
        let a := s.digestAttempts + 1
        if max_digest_attempts ≤ a then
          (⟨some date, a⟩, true)
        else
          (⟨s.lastDigestDate, a⟩, true)
    else
      (s, false)
  else
    (⟨s.lastDigestDate, 0⟩, false)

/-- A run of consecutive scheduler ticks all falling on date `d` during
the digest hour `H` (the retry window of `runner.py`): fold `digestTick`
over the list of attempt outcomes, counting how many ticks made an
attempt. -/
def digestHourRun (digestHour d : Nat) (s : DigestState) :
    List Bool → DigestState × Nat
  | [] => (s, 0)
  | o :: rest =>
    let step := digestTick digestHour s d digestHour o
    let tail := digestHourRun digestHour d step.1 rest
    (tail.1, (if step.2 then 1 else 0) + tail.2)

/-! ## Notification sink (`slack.py`) and environment -/

/-- The configuration fields the embedded components read
(`shared/config.py` environment loading is out of scope; only the fields
consulted by the embedded code appear). -/
structure Config where
  anthropicApiKey : Option String
  slackWebhookUrl : Option String
  digestHour : Nat
deriving Repr, DecidableEq

/-- The external collaborators consumed by tool dispatch, each already
composed with its formatting helper (`query_metrics` +
`format_instant_results`, `query_logs` + `format_log_results`,
`get_cluster_status` + `format_cluster_status`): a call either yields the
formatted text or raises.  `httpOk` abstracts whether the HTTP post to
the Slack webhook succeeds (`slack.py` lines 79-87). -/
structure Collab where
  queryMetrics : String → Except String String
  queryLogs : String → String → Except String String
  clusterStatus : Except String String
  httpOk : Bool

/-- `send_slack_alert` (`slack.py` lines 17-87): returns `false` without
raising when no webhook is configured (lines 34-36), otherwise posts and
returns `true` on HTTP success, `false` (exception caught, line 85-87)
on HTTP failure.  The severity/title/message only shape the payload. -/
def send_slack_alert (webhookUrl : Option String) (httpOk : Bool)
    (severity title message : String) : Bool :=
  match webhookUrl with
  | none => false
  | some _ =>
    let _ := (severity, title, message)
    httpOk

/-- A record of one `send_slack_alert` invocation: the arguments passed
and the boolean the call returned. -/
structure SlackCall where
  severity : String
  title : String
  message : String
  delivered : Bool
deriving Repr, DecidableEq

/-- Invoke the notification sink and record the call. -/
def notifySlack (cfg : Config) (env : Collab) (severity title message : String) :
    SlackCall :=
  { severity := severity
  , title := title
  , message := message
  , delivered := send_slack_alert cfg.slackWebhookUrl env.httpOk severity title message }

/-! ## Tool dispatch (`investigate.py`, `_execute_tool`, lines 98-130) -/

/-- Fetch a required argument from the tool input mapping; a missing key
is Python's `KeyError` raised inside the `try` block (Python renders the
exception as the quoted key; the embedding renders it as
`"KeyError: " ++ key`). -/
def requireArg (tool_input : List (String × String)) (key : String) :
    Except String String :=
  match tool_input.lookup key with
  | some v => Except.ok v
  | none => Except.error ("KeyError: " ++ key)

/-- The body of `_execute_tool`'s `try` block (lines 100-127): dispatch
on the tool name, calling the collaborator; returns the result text
together with the `send_slack_alert` calls made (only the `send_alert`
branch makes one).  `Except.error` is a raised exception. -/
def execute_tool_inner (cfg : Config) (env : Collab) (tool_name : String)
    (tool_input : List (String × String)) : Except String (String × List SlackCall) :=
  if tool_name = "query_metrics" then do
    let promql ← requireArg tool_input "promql"
    let formatted ← env.queryMetrics promql
    return (formatted, [])
  else if tool_name = "query_logs" then do
    let logql ← requireArg tool_input "logql"
    let since := (tool_input.lookup "since").getD "15m"
    let formatted ← env.queryLogs logql since
    return (formatted, [])
  else if tool_name = "get_cluster_status" then do
    let formatted ← env.clusterStatus
    return (formatted, [])
  else if tool_name = "send_alert" then do
    let severity ← requireArg tool_input "severity"
    let title ← requireArg tool_input "title"
    let message ← requireArg tool_input "message"
    let call := notifySlack cfg env severity title message
    return ("Alert sent to Slack successfully.", [call])
  else
    return ("Unknown tool: " ++ tool_name, [])

/-- `_execute_tool` (lines 98-130): the `try`/`except` wrapper — any
exception from the body becomes the result text `"Tool error: " ++ e`
(line 129-130), so tool dispatch never raises. -/
def execute_tool (cfg : Config) (env : Collab) (tool_name : String)
    (tool_input : List (String × String)) : String × List SlackCall :=
  match execute_tool_inner cfg env tool_name tool_input with
  | Except.ok r => r
  | Except.error e => ("Tool error: " ++ e, [])

/-! ## The investigation loop (`investigate.py`, `investigate_alerts`) -/

/-- `MAX_TOOL_ROUNDS = 5` (`investigate.py` line 15). -/
def MAX_TOOL_ROUNDS : Nat := 5

/-- A model-issued tool call as normalized by the provider
(`provider.py`: dict with `id`, `name`, `input`). -/
structure ToolCall where
  id : String
  name : String
  input : List (String × String)
deriving Repr, DecidableEq

/-- A normalized completion response (`provider.py` `complete`: dict with
`content` and `tool_calls`; `stop_reason` is never read by the agent). -/
structure Response where
  content : String
  tool_calls : List ToolCall
deriving Repr, DecidableEq

/-- One content block of a conversation message (`investigate.py` lines
198-221): a text block, a `tool_use` block, or a `tool_result` block. -/
inductive Block where
  | text (t : String)
  | tool_use (id name : String) (input : List (String × String))
  | tool_result (tool_use_id : String) (content : String)
deriving Repr, DecidableEq

/-- Message content: the initial user message is a plain string
(line 162-172); subsequent turns carry block lists. -/
inductive MsgContent where
  | str (s : String)
  | blocks (bs : List Block)
deriving Repr, DecidableEq

/-- One turn of the conversation history (`messages` list). -/
structure Message where
  role : String
  content : MsgContent
deriving Repr, DecidableEq

/-- One line of the alert summary (line 154):
`[{severity.upper()}] {check_name}: {message}`. -/
def alertLine (a : Alert) : String :=
  "[" ++ a.severity.toUpper ++ "] " ++ a.check_name ++ ": " ++ a.message

/-- `alert_text` (lines 152-155): the alert lines joined by newlines. -/
def alertText (alerts : List Alert) : String :=
  String.intercalate "\n" (alerts.map alertLine)

/-- The initial user message (lines 162-172). -/
def initialMessage (alerts : List Alert) : Message :=
  { role := "user"
  , content := MsgContent.str
      ("The following alerts were just detected by automated monitoring:\n\n"
        ++ alertText alerts
        ++ "\n\nInvestigate the root cause using the available tools, then send an alert "
        ++ "to Slack with your findings. Be concise and actionable.") }

/-- The assistant turn's content for a round with tool calls (lines
198-208): the response text (when non-empty) followed by one `tool_use`
block per tool call, in order. -/
def assistantBlocks (response : Response) : List Block :=
  (if response.content ≠ "" then [Block.text response.content] else [])
    ++ response.tool_calls.map (fun tc => Block.tool_use tc.id tc.name tc.input)

/-- The tool-result turn's content (lines 211-221): one `tool_result`
block per tool call, in order, carrying the call's id and the dispatch
result truncated to 2000 characters. -/
def toolResultBlocks (cfg : Config) (env : Collab) (response : Response) : List Block :=
  response.tool_calls.map (fun tc =>
    Block.tool_result tc.id ((execute_tool cfg env tc.name tc.input).1.take 2000))

/-- The `send_slack_alert` calls performed while dispatching a round's
tool calls (only `send_alert` dispatches produce one). -/
def roundSlackCalls (cfg : Config) (env : Collab) (response : Response) : List SlackCall :=
  (response.tool_calls.map (fun tc => (execute_tool cfg env tc.name tc.input).2)).flatten

/-- The loop body for a round whose response carries tool calls (lines
198-223): append the assistant turn, then the user turn of tool results. -/
def processRound (cfg : Config) (env : Collab) (messages : List Message)
    (response : Response) : List Message :=
  messages
    ++ [{ role := "assistant", content := MsgContent.blocks (assistantBlocks response) }
      , { role := "user", content := MsgContent.blocks (toolResultBlocks cfg env response) }]

/-- Terminal states of the investigation loop. -/
inductive Outcome where
  | concludedByText
  | concludedByAlert
  | timedOut
deriving Repr, DecidableEq

/-- What one investigation run did: how many completion requests were
issued, which `send_slack_alert` calls were made by the loop (through
tool dispatch or directly), the final conversation history, and the
terminal state reached. -/
structure RunResult where
  requests : Nat
  notifications : List SlackCall
  messages : List Message
  outcome : Outcome
deriving Repr, DecidableEq

/-- The Timed-out notification's message (line 236). -/
def timeoutMessage (alerts : List Alert) : String :=
  ("AI investigation for the following alerts hit the "
    ++ toString MAX_TOOL_ROUNDS ++ "-round limit:\n") ++ alertText alerts

/-- The `for round_num in range(MAX_TOOL_ROUNDS): ... else: ...` loop of
`investigate_alerts` (lines 174-237), with `fuel` the rounds remaining
and `roundNum` the next round index.  The provider (`llm.complete`) is a
function from the round index to a normalized response or a raised
exception; an exception propagates out of the loop (there is no
`try` around the completion call). -/
def runRounds (cfg : Config) (env : Collab) (provider : Nat → Except String Response)
    (alerts : List Alert) : Nat → Nat → List Message → Except String RunResult
  | 0, _, messages =>
    Except.ok
      { requests := 0
      , notifications :=
          [notifySlack cfg env "warning" "Investigation Timeout" (timeoutMessage alerts)]
      , messages := messages
      , outcome := Outcome.timedOut }
  | fuel + 1, roundNum, messages =>
    match provider roundNum with
    | Except.error e => Except.error e
    | Except.ok response =>
      if response.tool_calls = [] then
        Except.ok
          { requests := 1
          , notifications :=
              if response.content ≠ "" then
                [notifySlack cfg env "warning" "Investigation Result"
                  (response.content.take 3000)]
              else []
          , messages := messages
          , outcome := Outcome.concludedByText }
      else
        let messages2 := processRound cfg env messages response
        let notes := roundSlackCalls cfg env response
        if response.tool_calls.any (fun tc => tc.name = "send_alert") then
          Except.ok
            { requests := 1
            , notifications := notes
            , messages := messages2
            , outcome := Outcome.concludedByAlert }
        else
          match runRounds cfg env provider alerts fuel (roundNum + 1) messages2 with
          | Except.error e => Except.error e
          | Except.ok r =>
            Except.ok
              { requests := r.requests + 1
              , notifications := notes ++ r.notifications
              , messages := r.messages
              , outcome := r.outcome }

/-- `investigate_alerts` (lines 145-237): run the loop from round 0 with
the initial user message summarizing the alert batch. -/
def investigate_alerts (cfg : Config) (env : Collab)
    (provider : Nat → Except String Response) (alerts : List Alert) :
    Except String RunResult :=
  runRounds cfg env provider alerts MAX_TOOL_ROUNDS 0 [initialMessage alerts]

/-- A provider that never raises, as a completion function. -/
def pureProvider (p : Nat → Response) : Nat → Except String Response :=
  fun n => Except.ok (p n)

/-! ## Scheduler Tier 0 routing (`runner.py` lines 19-48 and 83-87) -/

/-- `run_tier0` (lines 19-48): aggregate the checks; on a non-empty
alert list, route to the investigation agent when an Anthropic key is
configured, else (when a Slack webhook is configured) send each alert
directly as one notification; with neither, nothing is sent.  Returns
the `send_slack_alert` calls made and whether `investigate_alerts` was
invoked; `Except.error` is an exception escaping `run_tier0`. -/
def run_tier0 (cfg : Config) (env : Collab)
    (provider : Nat → Except String Response)
    (checks : List (String × Except String (List Alert))) :
    Except String (List SlackCall × Bool) :=
  let alerts := run_all_checks checks
  if alerts = [] then
    Except.ok ([], false)
  else
    match cfg.anthropicApiKey with
    | some _ =>
      match investigate_alerts cfg env provider alerts with
      | Except.error e => Except.error e
      | Except.ok r => Except.ok (r.notifications, true)
    | none =>
      match cfg.slackWebhookUrl with
      | some _ =>
        Except.ok
          (alerts.map (fun a => notifySlack cfg env a.severity a.check_name a.message),
            false)
      | none => Except.ok ([], false)

/-- The scheduler loop's guarded Tier 0 step (`runner.py` lines 83-87):
`try: await run_tier0(config) except Exception: log.exception(...)` —
an escaping exception is caught and logged, the tick continues.  Returns
the notification calls that reached the sink. -/
def scheduler_tier0_tick (cfg : Config) (env : Collab)
    (provider : Nat → Except String Response)
    (checks : List (String × Except String (List Alert))) : List SlackCall :=
  match run_tier0 cfg env provider checks with
  | Except.error _ => []
  | Except.ok r => r.1

/-! ## Auxiliary definitions used by the statements -/

/-- The ids of the `tool_use` blocks of a turn, in order. -/
def toolUseIds (bs : List Block) : List String :=
  bs.filterMap fun b =>
    match b with
    | Block.tool_use id _ _ => some id
    | _ => none

/-- The `tool_use_id`s of the `tool_result` blocks of a turn, in order. -/
def toolResultIds (bs : List Block) : List String :=
  bs.filterMap fun b =>
    match b with
    | Block.tool_result id _ => some id
    | _ => none

/-- A concrete collaborator environment (every query fails, HTTP down)
for closed instances. -/
def env0 : Collab :=
  { queryMetrics := fun _ => Except.error "connection refused"
  , queryLogs := fun _ _ => Except.error "connection refused"
  , clusterStatus := Except.error "connection refused"
  , httpOk := false }

/-- A concrete configuration with neither an AI key nor a webhook. -/
def cfg0 : Config :=
  { anthropicApiKey := none, slackWebhookUrl := none, digestHour := 8 }

/-- A concrete completion response with exactly one tool call, for
closed instances. -/
def resp0 : Response :=
  { content := ""
  , tool_calls := [{ id := "toolu_1", name := "query_metrics", input := [("promql", "up")] }] }

/-- The example alert of the spec's Tier 0 scenario. -/
def cpuAlert : Alert :=
  { check_name := "CPU Load Critical"
  , severity := "critical"
  , message := "mercury: 15m load average 9.0 (threshold: 8.0)" }

/-! # Theorems -/

/-! ## Alert aggregation -/

theorem run_all_checks_foldl_general
    (checks : List (String × Except String (List Alert))) (acc : List Alert) :
    checks.foldl
      (fun all_alerts c =>
        match c.2 with
        | Except.ok alerts => all_alerts ++ alerts
        | Except.error _ => all_alerts ++ [syntheticAlert c.1])
      acc = acc ++ (checks.map checkContribution).flatten := by
  induction checks generalizing acc with
  | nil => simp
  | cons c rest ih =>
    cases h : c.2 with
    | ok alerts => simp [List.foldl, h, ih, checkContribution, List.append_assoc]
    | error e => simp [List.foldl, h, ih, checkContribution, List.append_assoc]

theorem run_all_checks_eq_join
    (checks : List (String × Except String (List Alert))) :
    run_all_checks checks = (checks.map checkContribution).flatten := by
  simpa using run_all_checks_foldl_general checks []

/-! ## Tool dispatch lemmas -/

theorem execute_tool_inner_ok_snd (cfg : Config) (env : Collab) (tool_name : String)
    (tool_input : List (String × String)) (h : tool_name ≠ "send_alert") :
    ∀ r, execute_tool_inner cfg env tool_name tool_input = Except.ok r → r.2 = [] := by
  intro r hr
  unfold execute_tool_inner at hr
  split_ifs at hr with h1 h2 h3
  · cases hq : requireArg tool_input "promql" with
    | error e => simp [hq, Except.bind, Bind.bind] at hr
    | ok v =>
      cases hm : env.queryMetrics v with
      | error e => simp [hq, hm, Except.bind, Bind.bind] at hr
      | ok f =>
        simp [hq, hm, Except.bind, Bind.bind, pure, Except.pure] at hr
        simp [← hr]
  · cases hq : requireArg tool_input "logql" with
    | error e => simp [hq, Except.bind, Bind.bind] at hr
    | ok v =>
      cases hm : env.queryLogs v ((tool_input.lookup "since").getD "15m") with
      | error e => simp [hq, hm, Except.bind, Bind.bind] at hr
      | ok f =>
        simp [hq, hm, Except.bind, Bind.bind, pure, Except.pure] at hr
        simp [← hr]
  · cases hm : env.clusterStatus with
    | error e => simp [hm, Except.bind, Bind.bind] at hr
    | ok f =>
      simp [hm, Except.bind, Bind.bind, pure, Except.pure] at hr
      simp [← hr]
  · simp [pure, Except.pure] at hr
    simp [← hr]

theorem execute_tool_snd_of_ne (cfg : Config) (env : Collab) (tool_name : String)
    (tool_input : List (String × String)) (h : tool_name ≠ "send_alert") :
    (execute_tool cfg env tool_name tool_input).2 = [] := by
  unfold execute_tool
  cases hi : execute_tool_inner cfg env tool_name tool_input with
  | error e => rfl
  | ok r => exact execute_tool_inner_ok_snd cfg env tool_name tool_input h r hi

theorem roundSlackCalls_eq_nil (cfg : Config) (env : Collab) (response : Response)
    (h : ∀ tc ∈ response.tool_calls, tc.name ≠ "send_alert") :
    roundSlackCalls cfg env response = [] := by
  unfold roundSlackCalls
  rw [List.flatten_eq_nil_iff]
  intro xs hxs
  rw [List.mem_map] at hxs
  obtain ⟨tc, htc, rfl⟩ := hxs
  exact execute_tool_snd_of_ne cfg env tc.name tc.input (h tc htc)

theorem execute_tool_send_alert_ok (cfg : Config) (env : Collab)
    (tool_input : List (String × String)) (severity title message : String)
    (hs : tool_input.lookup "severity" = some severity)
    (ht : tool_input.lookup "title" = some title)
    (hm : tool_input.lookup "message" = some message) :
    execute_tool cfg env "send_alert" tool_input =
      ("Alert sent to Slack successfully.", [notifySlack cfg env severity title message]) := by
  unfold execute_tool execute_tool_inner
  simp [requireArg, hs, ht, hm, Except.bind, Bind.bind, pure, Except.pure]

/-- C4: for every subset of the declared checks raising an exception,
`run_all_checks` returns the concatenation, in check-declaration order,
of each succeeding check's alerts and exactly one synthetic
warning-severity alert naming each failing check; no check failure
aborts the batch (the function is total and the equation holds for every
outcome assignment). -/
theorem C4_run_all_checks_isolation
    (checks : List (String × Except String (List Alert))) :
    run_all_checks checks = (checks.map checkContribution).flatten ∧
    (∀ c : String × Except String (List Alert),
      (∀ alerts, c.2 = Except.ok alerts → checkContribution c = alerts) ∧
      (∀ e, c.2 = Except.error e → checkContribution c = [syntheticAlert c.1])) ∧
    (∀ name : String,
      (syntheticAlert name).severity = "warning" ∧
      (syntheticAlert name).check_name = "Check Error: " ++ name) := by
  refine ⟨run_all_checks_eq_join checks, ?_, ?_⟩
  · intro c
    constructor
    · intro alerts hc
      simp [checkContribution, hc]
    · intro e hc
      simp [checkContribution, hc]
  · intro name
    exact ⟨rfl, rfl⟩

/-- C6: tool dispatch never raises — `execute_tool` is a total function;
an execution failure (missing argument, collaborator error) becomes the
result text `"Tool error: " ++ e`, which is non-empty and carries the
fixed error marker; an undeclared tool name yields ordinary result text
naming the unknown tool. -/
theorem C6_tool_dispatch_total (cfg : Config) (env : Collab) (tool_name : String)
    (tool_input : List (String × String)) :
    (∀ e, execute_tool_inner cfg env tool_name tool_input = Except.error e →
      execute_tool cfg env tool_name tool_input = ("Tool error: " ++ e, []) ∧
      ("Tool error: " ++ e : String) ≠ "" ∧
      ∃ rest, ("Tool error: " ++ e : String) = "Tool error: " ++ rest) ∧
    (tool_name = "query_metrics" → tool_input.lookup "promql" = none →
      execute_tool cfg env tool_name tool_input = ("Tool error: KeyError: promql", [])) ∧
    (tool_name = "query_metrics" →
      ∀ q msg, tool_input.lookup "promql" = some q → env.queryMetrics q = Except.error msg →
      execute_tool cfg env tool_name tool_input = ("Tool error: " ++ msg, [])) ∧
    (tool_name ≠ "query_metrics" → tool_name ≠ "query_logs" →
      tool_name ≠ "get_cluster_status" → tool_name ≠ "send_alert" →
      execute_tool cfg env tool_name tool_input = ("Unknown tool: " ++ tool_name, [])) := by
  refine ⟨?_, ?_, ?_, ?_⟩
  · intro e he
    refine ⟨?_, ?_, e, rfl⟩
    · unfold execute_tool
      rw [he]
    · intro hcontra
      have h2 := congrArg String.length hcontra
      simp [String.length_append] at h2
      exact absurd h2.1 (by decide)
  · intro hname hkey
    subst hname
    unfold execute_tool execute_tool_inner
    simp [requireArg, hkey, Except.bind, Bind.bind]
  · intro hname q msg hq hmetrics
    subst hname
    unfold execute_tool execute_tool_inner
    simp [requireArg, hq, hmetrics, Except.bind, Bind.bind]
  · intro h1 h2 h3 h4
    unfold execute_tool execute_tool_inner
    simp [h1, h2, h3, h4, pure, Except.pure]

/-! ## Digest bookkeeping lemmas -/

theorem digestHourRun_le (H d : Nat) :
    ∀ (outcomes : List Bool) (s : DigestState),
      (digestHourRun H d s outcomes).2 ≤
        (if s.lastDigestDate = some d then 0
          else max_digest_attempts - s.digestAttempts) := by
  intro outcomes
  induction outcomes with
  | nil =>
    intro s
    simp [digestHourRun]
  | cons o rest ih =>
    intro s
    by_cases hmark : s.lastDigestDate = some d
    · have hstep : digestTick H s d H o = (⟨some d, 0⟩, false) := by
        unfold digestTick
        rw [if_neg]
        · rw [hmark]
        · simp [hmark]
      have htail := ih ⟨some d, 0⟩
      simp at htail
      simp [digestHourRun, hstep, hmark]
      omega
    · by_cases hlt : s.digestAttempts < max_digest_attempts
      · cases o with
        | true =>
          have hstep : digestTick H s d H true = (⟨some d, 0⟩, true) := by
            unfold digestTick
            rw [if_pos ⟨rfl, hmark⟩, if_pos hlt]
            simp
          have htail := ih ⟨some d, 0⟩
          simp at htail
          simp [digestHourRun, hstep, hmark]
          omega
        | false =>
          by_cases hge : max_digest_attempts ≤ s.digestAttempts + 1
          · have hstep : digestTick H s d H false =
                (⟨some d, s.digestAttempts + 1⟩, true) := by
              unfold digestTick
              rw [if_pos ⟨rfl, hmark⟩, if_pos hlt]
              simp [hge]
            have htail := ih ⟨some d, s.digestAttempts + 1⟩
            simp at htail
            simp [digestHourRun, hstep, hmark]
            omega
          · have hstep : digestTick H s d H false =
                (⟨s.lastDigestDate, s.digestAttempts + 1⟩, true) := by
              unfold digestTick
              rw [if_pos ⟨rfl, hmark⟩, if_pos hlt]
              simp [hge]
            have htail := ih ⟨s.lastDigestDate, s.digestAttempts + 1⟩
            simp [hmark] at htail
            simp [digestHourRun, hstep, hmark]
            omega
      · have hstep : digestTick H s d H o = (s, false) := by
          unfold digestTick
          rw [if_pos ⟨rfl, hmark⟩, if_neg hlt]
        have htail := ih s
        simp [hmark] at htail
        simp [digestHourRun, hstep, hmark]
        omega

/-- C5: the scheduler's digest bookkeeping — three consecutive failed
attempts on one date mark that date done (`last_digest_date` set) after
exactly 3 attempts; a marked date never gets another attempt and stays
marked, so no 4th attempt happens that date; a successful attempt within
the window resets the failure counter to 0 and marks the date; and from
the post-success state a new date gets an attempt again (full budget). -/
theorem C5_digest_retry_bookkeeping (H d : Nat) (s : DigestState)
    (hdate : s.lastDigestDate ≠ some d) (hatt : s.digestAttempts = 0) :
    digestHourRun H d s [false, false, false] = (⟨some d, 3⟩, 3) ∧
    (∀ (t : DigestState) (hour : Nat) (o : Bool), t.lastDigestDate = some d →
      digestTick H t d hour o = (⟨some d, 0⟩, false)) ∧
    (∀ t : DigestState, t.lastDigestDate ≠ some d →
      t.digestAttempts < max_digest_attempts →
      digestTick H t d H true = (⟨some d, 0⟩, true)) ∧
    (∀ (d' : Nat) (o : Bool), d' ≠ d →
      (digestTick H ⟨some d, 0⟩ d' H o).2 = true ∧
      digestTick H ⟨some d, 0⟩ d' H true = (⟨some d', 0⟩, true)) := by
  refine ⟨?_, ?_, ?_, ?_⟩
  · simp [digestHourRun, digestTick, hatt, hdate, max_digest_attempts]
  · intro t hour o ht
    unfold digestTick
    rw [if_neg]
    · rw [ht]
    · simp [ht]
  · intro t ht hlt
    unfold digestTick
    rw [if_pos ⟨rfl, ht⟩, if_pos hlt]
    simp
  · intro d' o hne
    have hsome : (some d : Option Nat) ≠ some d' := by
      simpa using Ne.symm hne
    constructor
    · cases o with
      | true =>
        unfold digestTick
        rw [if_pos ⟨rfl, hsome⟩]
        simp [max_digest_attempts]
      | false =>
        unfold digestTick
        rw [if_pos ⟨rfl, hsome⟩]
        simp [max_digest_attempts]
    · unfold digestTick
      rw [if_pos ⟨rfl, hsome⟩]
      simp [max_digest_attempts]

/-- Closed instance of C5: digest hour 8, date 0, fresh state — three
consecutive failures attempt exactly 3 times and mark the date done. -/
theorem C5_witness_concrete :
    digestHourRun 8 0 ⟨none, 0⟩ [false, false, false] = (⟨some 0, 3⟩, 3) :=
  (C5_digest_retry_bookkeeping 8 0 ⟨none, 0⟩ (by decide) rfl).1

/-- C9 is false as stated: the digest can be attempted twice on the same
calendar date — with digest hour 8 and two consecutive failing ticks on
date 0 starting from the fresh state, both ticks enter the digest
attempt branch. -/
theorem C9_counterexample_two_attempts_same_date :
    (digestHourRun 8 0 ⟨none, 0⟩ [false, false]).2 = 2 := by
  decide

/-- C9 (amended): during the digest hour of one calendar date the
scheduler makes at most `max_digest_attempts` (3) digest attempts, and
once the date is marked done (after a success or after exhausting the
budget) no further attempt is made on that date. -/
theorem C9_amended_attempt_budget (H d : Nat) (s : DigestState)
    (outcomes : List Bool)
    (hdate : s.lastDigestDate ≠ some d) (hatt : s.digestAttempts = 0) :
    (digestHourRun H d s outcomes).2 ≤ max_digest_attempts ∧
    (∀ t : DigestState, t.lastDigestDate = some d →
      (digestHourRun H d t outcomes).2 = 0) := by
  constructor
  · have h := digestHourRun_le H d outcomes s
    rw [if_neg hdate, hatt] at h
    omega
  · intro t ht
    have h := digestHourRun_le H d outcomes t
    rw [if_pos ht] at h
    omega

/-- Closed instance of the amended C9: five ticks in the digest hour of
date 0 (four failures then a success) make at most 3 attempts. -/
theorem C9_witness_concrete :
    (digestHourRun 8 0 ⟨none, 0⟩ [false, false, false, false, true]).2 ≤
      max_digest_attempts :=
  (C9_amended_attempt_budget 8 0 ⟨none, 0⟩ [false, false, false, false, true]
    (by decide) rfl).1

/-! ## Investigation loop equations -/

theorem runRounds_zero (cfg : Config) (env : Collab)
    (provider : Nat → Except String Response) (alerts : List Alert)
    (roundNum : Nat) (messages : List Message) :
    runRounds cfg env provider alerts 0 roundNum messages =
      Except.ok
        { requests := 0
        , notifications :=
            [notifySlack cfg env "warning" "Investigation Timeout" (timeoutMessage alerts)]
        , messages := messages
        , outcome := Outcome.timedOut } := rfl

theorem runRounds_error (cfg : Config) (env : Collab)
    (provider : Nat → Except String Response) (alerts : List Alert)
    (fuel roundNum : Nat) (messages : List Message) (e : String)
    (hp : provider roundNum = Except.error e) :
    runRounds cfg env provider alerts (fuel + 1) roundNum messages = Except.error e := by
  unfold runRounds
  rw [hp]

theorem runRounds_text (cfg : Config) (env : Collab)
    (provider : Nat → Except String Response) (alerts : List Alert)
    (fuel roundNum : Nat) (messages : List Message) (response : Response)
    (hp : provider roundNum = Except.ok response)
    (htc : response.tool_calls = []) :
    runRounds cfg env provider alerts (fuel + 1) roundNum messages =
      Except.ok
        { requests := 1
        , notifications :=
            if response.content ≠ "" then
              [notifySlack cfg env "warning" "Investigation Result"
                (response.content.take 3000)]
            else []
        , messages := messages
        , outcome := Outcome.concludedByText } := by
  unfold runRounds
  rw [hp]
  simp [htc]

theorem runRounds_alert (cfg : Config) (env : Collab)
    (provider : Nat → Except String Response) (alerts : List Alert)
    (fuel roundNum : Nat) (messages : List Message) (response : Response)
    (hp : provider roundNum = Except.ok response)
    (hsa : response.tool_calls.any (fun tc => tc.name = "send_alert") = true) :
    runRounds cfg env provider alerts (fuel + 1) roundNum messages =
      Except.ok
        { requests := 1
        , notifications := roundSlackCalls cfg env response
        , messages := processRound cfg env messages response
        , outcome := Outcome.concludedByAlert } := by
  have htc : response.tool_calls ≠ [] := by
    intro h
    rw [h] at hsa
    simp at hsa
  unfold runRounds
  rw [hp]
  simp [htc, hsa]

theorem runRounds_continue (cfg : Config) (env : Collab)
    (provider : Nat → Except String Response) (alerts : List Alert)
    (fuel roundNum : Nat) (messages : List Message) (response : Response)
    (hp : provider roundNum = Except.ok response)
    (htc : response.tool_calls ≠ [])
    (hsa : response.tool_calls.any (fun tc => tc.name = "send_alert") = false) :
    runRounds cfg env provider alerts (fuel + 1) roundNum messages =
      match runRounds cfg env provider alerts fuel (roundNum + 1)
          (processRound cfg env messages response) with
      | Except.error e => Except.error e
      | Except.ok r =>
        Except.ok
          { requests := r.requests + 1
          , notifications := roundSlackCalls cfg env response ++ r.notifications
          , messages := r.messages
          , outcome := r.outcome } := by
  cases hrec : runRounds cfg env provider alerts fuel (roundNum + 1)
      (processRound cfg env messages response) with
  | error e =>
    rw [runRounds.eq_def]
    simp [hp, htc, hsa, hrec]
  | ok r =>
    rw [runRounds.eq_def]
    simp [hp, htc, hsa, hrec]

/-- The per-round predicate of the Timed-out characterization: the round
carried tool calls and none of them named `send_alert`. -/
def roundContinues (p : Nat → Response) (i : Nat) : Prop :=
  (p i).tool_calls ≠ [] ∧ ∀ tc ∈ (p i).tool_calls, tc.name ≠ "send_alert"

theorem runRounds_pure_spec (cfg : Config) (env : Collab) (p : Nat → Response)
    (alerts : List Alert) :
    ∀ (fuel roundNum : Nat) (messages : List Message),
    ∃ r : RunResult,
      runRounds cfg env (pureProvider p) alerts fuel roundNum messages = Except.ok r ∧
      r.requests ≤ fuel ∧
      (r.outcome = Outcome.timedOut ↔
        ∀ i, i < fuel → roundContinues p (roundNum + i)) ∧
      (r.outcome = Outcome.timedOut →
        r.notifications =
          [notifySlack cfg env "warning" "Investigation Timeout"
            (timeoutMessage alerts)]) := by
  intro fuel
  induction fuel with
  | zero =>
    intro roundNum messages
    refine ⟨_, runRounds_zero cfg env (pureProvider p) alerts roundNum messages,
      Nat.le_refl 0, ?_, fun _ => rfl⟩
    constructor
    · intro _ i hi
      omega
    · intro _
      rfl
  | succ fuel ih =>
    intro roundNum messages
    have hp : pureProvider p roundNum = Except.ok (p roundNum) := rfl
    by_cases htc : (p roundNum).tool_calls = []
    · refine ⟨_, runRounds_text cfg env (pureProvider p) alerts fuel roundNum messages
        (p roundNum) hp htc, by show 1 ≤ fuel + 1; omega, ?_, ?_⟩
      · constructor
        · intro hout
          exact absurd hout (by simp)
        · intro hall
          have h0 := hall 0 (by omega)
          rw [Nat.add_zero] at h0
          exact absurd htc h0.1
      · intro hout
        exact absurd hout (by simp)
    · by_cases hsa :
          (p roundNum).tool_calls.any (fun tc => tc.name = "send_alert") = true
      · refine ⟨_, runRounds_alert cfg env (pureProvider p) alerts fuel roundNum messages
          (p roundNum) hp hsa, by show 1 ≤ fuel + 1; omega, ?_, ?_⟩
        · constructor
          · intro hout
            exact absurd hout (by simp)
          · intro hall
            have h0 := hall 0 (by omega)
            rw [Nat.add_zero] at h0
            rw [List.any_eq_true] at hsa
            obtain ⟨tc, htcmem, hname⟩ := hsa
            rw [decide_eq_true_eq] at hname
            exact absurd hname (h0.2 tc htcmem)
        · intro hout
          exact absurd hout (by simp)
      · rw [Bool.not_eq_true] at hsa
        have hnosend : ∀ tc ∈ (p roundNum).tool_calls, tc.name ≠ "send_alert" := by
          intro tc htcmem
          rw [List.any_eq_false] at hsa
          have := hsa tc htcmem
          rw [decide_eq_true_eq] at this
          exact this
        obtain ⟨r, hr, hreq, hiff, hnote⟩ :=
          ih (roundNum + 1) (processRound cfg env messages (p roundNum))
        refine ⟨{ requests := r.requests + 1
                , notifications := roundSlackCalls cfg env (p roundNum) ++ r.notifications
                , messages := r.messages
                , outcome := r.outcome }, ?_, ?_, ?_, ?_⟩
        · rw [runRounds_continue cfg env (pureProvider p) alerts fuel roundNum messages
            (p roundNum) hp htc hsa, hr]
        · show r.requests + 1 ≤ fuel + 1
          omega
        · constructor
          · intro hout
            intro i hi
            match i with
            | 0 =>
              rw [Nat.add_zero]
              exact ⟨htc, hnosend⟩
            | j + 1 =>
              have hj := (hiff.mp hout) j (by omega)
              have harith : roundNum + 1 + j = roundNum + (j + 1) := by omega
              rw [harith] at hj
              exact hj
          · intro hall
            apply hiff.mpr
            intro j hj
            have := hall (j + 1) (by omega)
            have harith : roundNum + (j + 1) = roundNum + 1 + j := by omega
            rw [harith] at this
            exact this
        · intro hout
          have hnotes : roundSlackCalls cfg env (p roundNum) = [] :=
            roundSlackCalls_eq_nil cfg env (p roundNum) hnosend
          simp only [hnotes, List.nil_append]
          exact hnote hout

/-- C1: for every sequence of provider responses, `investigate_alerts`
issues at most `MAX_TOOL_ROUNDS` (5) completion requests and then stops,
even if every response requests tool calls; the Timed-out outcome —
exactly one warning-severity notification whose message states the
round limit was hit and carries the original alert text verbatim —
occurs exactly when all 5 rounds carried tool calls and none of them
named `send_alert`, never earlier. -/
theorem C1_round_budget_and_timeout (cfg : Config) (env : Collab)
    (p : Nat → Response) (alerts : List Alert) :
    ∃ r : RunResult,
      investigate_alerts cfg env (pureProvider p) alerts = Except.ok r ∧
      r.requests ≤ MAX_TOOL_ROUNDS ∧
      (r.outcome = Outcome.timedOut ↔
        ∀ i, i < MAX_TOOL_ROUNDS →
          (p i).tool_calls ≠ [] ∧ ∀ tc ∈ (p i).tool_calls, tc.name ≠ "send_alert") ∧
      (r.outcome = Outcome.timedOut →
        r.notifications =
          [notifySlack cfg env "warning" "Investigation Timeout" (timeoutMessage alerts)] ∧
        timeoutMessage alerts =
          "AI investigation for the following alerts hit the 5-round limit:\n"
            ++ alertText alerts) := by
  obtain ⟨r, hr, hreq, hiff, hnote⟩ :=
    runRounds_pure_spec cfg env p alerts MAX_TOOL_ROUNDS 0 [initialMessage alerts]
  refine ⟨r, hr, hreq, ?_, ?_⟩
  · rw [hiff]
    constructor
    · intro h i hi
      have := h i hi
      rw [Nat.zero_add] at this
      exact this
    · intro h i hi
      unfold roundContinues
      rw [Nat.zero_add]
      exact h i hi
  · intro hout
    refine ⟨hnote hout, ?_⟩
    show ("AI investigation for the following alerts hit the "
        ++ toString MAX_TOOL_ROUNDS ++ "-round limit:\n") ++ alertText alerts = _
    congr 1

/-- C2: for every investigation round whose completion response carries
a non-empty tool-call list, the loop body appends exactly one assistant
turn holding all the tool calls, then exactly one user turn holding
exactly one `tool_result` per tool call, each `tool_use_id` equal to the
corresponding call's id, in order — no call dropped and no result
unmatched. -/
theorem toolUseIds_append (xs ys : List Block) :
    toolUseIds (xs ++ ys) = toolUseIds xs ++ toolUseIds ys := by
  simp [toolUseIds, List.filterMap_append]

theorem toolUseIds_of_map (l : List ToolCall) :
    toolUseIds (l.map fun tc => Block.tool_use tc.id tc.name tc.input) =
      l.map ToolCall.id := by
  induction l with
  | nil => rfl
  | cons a t ih => simpa [toolUseIds, List.filterMap_cons] using ih

theorem toolResultIds_of_map (f : ToolCall → String) (l : List ToolCall) :
    toolResultIds (l.map fun tc => Block.tool_result tc.id (f tc)) =
      l.map ToolCall.id := by
  induction l with
  | nil => rfl
  | cons a t ih => simpa [toolResultIds, List.filterMap_cons] using ih

theorem C2_tool_result_correlation (cfg : Config) (env : Collab)
    (messages : List Message) (response : Response)
    (h : response.tool_calls ≠ []) :
    processRound cfg env messages response =
      messages ++
        [{ role := "assistant", content := MsgContent.blocks (assistantBlocks response) }
        , { role := "user"
          , content := MsgContent.blocks (toolResultBlocks cfg env response) }] ∧
    toolUseIds (assistantBlocks response) = response.tool_calls.map ToolCall.id ∧
    toolResultIds (toolResultBlocks cfg env response) =
      response.tool_calls.map ToolCall.id ∧
    (toolResultBlocks cfg env response).length = response.tool_calls.length ∧
    toolResultBlocks cfg env response =
      response.tool_calls.map (fun tc =>
        Block.tool_result tc.id ((execute_tool cfg env tc.name tc.input).1.take 2000)) := by
  refine ⟨rfl, ?_, ?_, ?_, rfl⟩
  · unfold assistantBlocks
    rw [toolUseIds_append]
    by_cases hc : response.content ≠ ""
    · rw [if_pos hc]
      rw [toolUseIds_of_map]
      rfl
    · rw [if_neg hc]
      rw [toolUseIds_of_map]
      rfl
  · exact toolResultIds_of_map
      (fun tc => (execute_tool cfg env tc.name tc.input).1.take 2000)
      response.tool_calls
  · unfold toolResultBlocks
    simp

/-- Closed instance of C2: for a concrete one-call response the user
turn's `tool_use_id`s are exactly the response's call ids. -/
theorem C2_witness_concrete :
    toolResultIds (toolResultBlocks cfg0 env0 resp0) =
      resp0.tool_calls.map ToolCall.id :=
  (C2_tool_result_correlation cfg0 env0 [] resp0 (by decide)).2.2.1

/-- C7: a round whose completion response carries no tool calls exits
the loop immediately (Concluded-by-text): when the text is non-empty the
agent emits exactly one notification of severity `warning` titled
"Investigation Result" carrying the text truncated to 3000 characters,
and when the text is empty it emits nothing; in the spec's concrete
scenario (round 1: one `query_metrics` call; round 2: no tool calls and
text "root cause: node mercury overloaded") exactly 2 completion
requests are issued and exactly one
`notify(warning, "Investigation Result", that text)` occurs. -/
theorem C7_concluded_by_text (cfg : Config) (env : Collab) :
    (∀ (provider : Nat → Except String Response) (alerts : List Alert)
        (fuel roundNum : Nat) (messages : List Message) (response : Response),
      provider roundNum = Except.ok response →
      response.tool_calls = [] →
      runRounds cfg env provider alerts (fuel + 1) roundNum messages =
        Except.ok
          { requests := 1
          , notifications :=
              if response.content ≠ "" then
                [notifySlack cfg env "warning" "Investigation Result"
                  (response.content.take 3000)]
              else []
          , messages := messages
          , outcome := Outcome.concludedByText }) ∧
    (∀ (alerts : List Alert) (callId : String) (input : List (String × String))
        (p : Nat → Response),
      p 0 = { content := ""
            , tool_calls := [{ id := callId, name := "query_metrics", input := input }] } →
      p 1 = { content := "root cause: node mercury overloaded", tool_calls := [] } →
      ∃ r : RunResult,
        investigate_alerts cfg env (pureProvider p) alerts = Except.ok r ∧
        r.requests = 2 ∧
        r.notifications.map (fun c => (c.severity, c.title, c.message)) =
          [("warning", "Investigation Result", "root cause: node mercury overloaded")] ∧
        r.outcome = Outcome.concludedByText) := by
  constructor
  · intro provider alerts fuel roundNum messages response hp htc
    exact runRounds_text cfg env provider alerts fuel roundNum messages response hp htc
  · intro alerts callId input p hp0 hp1
    have htc0 : (p 0).tool_calls ≠ [] := by
      rw [hp0]
      simp
    have hsa0 : (p 0).tool_calls.any (fun tc => tc.name = "send_alert") = false := by
      rw [hp0]
      simp
    have hnotes : roundSlackCalls cfg env (p 0) = [] := by
      apply roundSlackCalls_eq_nil
      rw [hp0]
      intro tc htcmem
      simp at htcmem
      rw [htcmem]
      simp
    have htc1 : (p 1).tool_calls = [] := by
      rw [hp1]
    have hcne : (p 1).content ≠ "" := by
      rw [hp1]
      simp
    have htake : ("root cause: node mercury overloaded" : String).take 3000 =
        "root cause: node mercury overloaded" := by
      rw [String.take_eq]
      norm_num
    have em : runRounds cfg env (pureProvider p) alerts 4 1
        (processRound cfg env [initialMessage alerts] (p 0)) =
        Except.ok
          { requests := 1
          , notifications :=
              [notifySlack cfg env "warning" "Investigation Result"
                ((p 1).content.take 3000)]
          , messages := processRound cfg env [initialMessage alerts] (p 0)
          , outcome := Outcome.concludedByText } := by
      have hstep := runRounds_text cfg env (pureProvider p) alerts 3 1
        (processRound cfg env [initialMessage alerts] (p 0)) (p 1) rfl htc1
      rw [if_pos hcne] at hstep
      exact hstep
    have e0 : investigate_alerts cfg env (pureProvider p) alerts =
        runRounds cfg env (pureProvider p) alerts (4 + 1) 0 [initialMessage alerts] := rfl
    have e1 := runRounds_continue cfg env (pureProvider p) alerts 4 0
      [initialMessage alerts] (p 0) rfl htc0 hsa0
    rw [Nat.zero_add] at e1
    have hrun : investigate_alerts cfg env (pureProvider p) alerts =
        Except.ok
          { requests := 2
          , notifications :=
              [notifySlack cfg env "warning" "Investigation Result"
                ((p 1).content.take 3000)]
          , messages := processRound cfg env [initialMessage alerts] (p 0)
          , outcome := Outcome.concludedByText } := by
      rw [e0, e1, em]
      simp [hnotes]
    refine ⟨_, hrun, rfl, ?_, rfl⟩
    simp [notifySlack, hp1, htake]

/-- C10: a well-formed `send_alert` tool call always yields the fixed
result text "Alert sent to Slack successfully." independently of whether
the notification was actually delivered — `send_slack_alert` returns
`false` without raising when no webhook is configured or the HTTP post
fails, and the result text is the same for every configuration and
delivery outcome; and a round containing a `send_alert` call enters the
Concluded-by-alert terminal state. -/
theorem C10_send_alert_delivery_unobservable (cfg : Config) (env : Collab)
    (tool_input : List (String × String)) (severity title message : String)
    (hs : tool_input.lookup "severity" = some severity)
    (ht : tool_input.lookup "title" = some title)
    (hm : tool_input.lookup "message" = some message) :
    execute_tool cfg env "send_alert" tool_input =
      ("Alert sent to Slack successfully.", [notifySlack cfg env severity title message]) ∧
    send_slack_alert none env.httpOk severity title message = false ∧
    (∀ url : String, send_slack_alert (some url) false severity title message = false) ∧
    (∀ (cfg' : Config) (env' : Collab),
      (execute_tool cfg' env' "send_alert" tool_input).1 =
        "Alert sent to Slack successfully.") ∧
    (∀ (provider : Nat → Except String Response) (alerts : List Alert)
        (fuel roundNum : Nat) (messages : List Message) (response : Response),
      provider roundNum = Except.ok response →
      response.tool_calls.any (fun tc => tc.name = "send_alert") = true →
      ∃ r : RunResult,
        runRounds cfg env provider alerts (fuel + 1) roundNum messages = Except.ok r ∧
        r.outcome = Outcome.concludedByAlert) := by
  refine ⟨execute_tool_send_alert_ok cfg env tool_input severity title message hs ht hm,
    rfl, fun _ => rfl, ?_, ?_⟩
  · intro cfg' env'
    rw [execute_tool_send_alert_ok cfg' env' tool_input severity title message hs ht hm]
  · intro provider alerts fuel roundNum messages response hp hsa
    exact ⟨_, runRounds_alert cfg env provider alerts fuel roundNum messages
      response hp hsa, rfl⟩

/-- Closed instance of C10: a concrete fully-argumented `send_alert`
call with the webhook unconfigured and HTTP down still produces the
fixed success text. -/
theorem C10_witness_concrete :
    execute_tool cfg0 env0 "send_alert"
      [("severity", "critical"), ("title", "Disk"), ("message", "full")] =
      ("Alert sent to Slack successfully.",
        [notifySlack cfg0 env0 "critical" "Disk" "full"]) :=
  (C10_send_alert_delivery_unobservable cfg0 env0
    [("severity", "critical"), ("title", "Disk"), ("message", "full")]
    "critical" "Disk" "full" rfl rfl rfl).1

/-- C3 is false as stated: with a provider that raises on the first
completion request, `investigate_alerts` propagates the exception out of
the function — no Timed-out-style notification is emitted (the returned
value is the raised exception, carrying no notification). -/
theorem C3_counterexample_exception_escapes :
    investigate_alerts (Config.mk (some "key") none 8) env0
      (fun _ => Except.error "ProviderError") [cpuAlert] =
      Except.error "ProviderError" := rfl

/-- C3 (amended): when the provider raises, the exception escapes
`investigate_alerts` (and `run_tier0`) with no notification emitted; the
scheduler loop's per-tick `try`/`except` (`runner.py` lines 83-87)
catches it, so the scheduler tick completes instead of crashing. -/
theorem C3_amended_provider_error_escapes (cfg : Config) (env : Collab)
    (provider : Nat → Except String Response) (alerts : List Alert)
    (checks : List (String × Except String (List Alert))) (e k : String)
    (hp : provider 0 = Except.error e)
    (hkey : cfg.anthropicApiKey = some k)
    (hchecks : run_all_checks checks ≠ []) :
    investigate_alerts cfg env provider alerts = Except.error e ∧
    run_tier0 cfg env provider checks = Except.error e ∧
    scheduler_tier0_tick cfg env provider checks = [] := by
  have hinv : ∀ als : List Alert,
      investigate_alerts cfg env provider als = Except.error e := by
    intro als
    exact runRounds_error cfg env provider als 4 0 [initialMessage als] e hp
  have ht0 : run_tier0 cfg env provider checks = Except.error e := by
    unfold run_tier0
    rw [if_neg hchecks, hkey]
    rw [hinv (run_all_checks checks)]
  refine ⟨hinv alerts, ht0, ?_⟩
  unfold scheduler_tier0_tick
  rw [ht0]

/-- Closed instance of the amended C3: a concrete failing provider with
an AI key configured — the exception escapes `investigate_alerts` but
the guarded scheduler tick returns normally with no notification. -/
theorem C3_witness_concrete :
    investigate_alerts (Config.mk (some "k") none 8) env0
      (fun _ => Except.error "boom") [cpuAlert] =
      Except.error "boom" :=
  (C3_amended_provider_error_escapes (Config.mk (some "k") none 8)
    env0 (fun _ => Except.error "boom") [cpuAlert]
    [("check_cpu_load", Except.ok [cpuAlert])] "boom" "k"
    rfl rfl (by decide)).1

/-- C8 is false as stated: with a non-empty alert batch, no AI key and
also no Slack webhook configured, `run_tier0` makes no notification call
at all (lines 37-46 guard direct delivery on the webhook), so "delivers
each alert directly as one individual notification" fails; the expected
`notify(critical, "CPU Load Critical", ...)` call does not occur. -/
theorem C8_counterexample_no_webhook :
    run_tier0 cfg0 env0 (fun _ => Except.error "unused")
      [("check_cpu_load", Except.ok [cpuAlert])] = Except.ok ([], false) := rfl

/-- C8 (amended): when a Tier 0 run yields a non-empty alert list, no AI
key is configured and a Slack webhook IS configured, the scheduler
delivers each alert directly as one individual notification carrying the
alert's severity, check name as title, and message, and never invokes
the InvestigationAgent; in particular the single example alert produces
exactly one `notify(critical, "CPU Load Critical", "mercury: 15m load
average 9.0 (threshold: 8.0)")` call.  (With no webhook configured,
nothing is sent; the InvestigationAgent is not invoked either way.) -/
theorem C8_amended_direct_delivery (cfg : Config) (env : Collab)
    (provider : Nat → Except String Response)
    (checks : List (String × Except String (List Alert))) (w : String)
    (hkey : cfg.anthropicApiKey = none)
    (hweb : cfg.slackWebhookUrl = some w)
    (halerts : run_all_checks checks ≠ []) :
    run_tier0 cfg env provider checks =
      Except.ok
        ((run_all_checks checks).map
          (fun a => notifySlack cfg env a.severity a.check_name a.message), false) ∧
    (∀ env' : Collab,
      run_tier0
        { anthropicApiKey := none, slackWebhookUrl := some w
        , digestHour := cfg.digestHour }
        env' provider [("check_cpu_load", Except.ok [cpuAlert])] =
        Except.ok
          ([{ severity := "critical"
            , title := "CPU Load Critical"
            , message := "mercury: 15m load average 9.0 (threshold: 8.0)"
            , delivered := env'.httpOk }], false)) := by
  constructor
  · unfold run_tier0
    rw [if_neg halerts, hkey, hweb]
  · intro env'
    have hrc : run_all_checks [("check_cpu_load", Except.ok [cpuAlert])] =
        [cpuAlert] := rfl
    unfold run_tier0
    rw [hrc, if_neg (by simp : ¬([cpuAlert] = []))]
    simp [notifySlack, send_slack_alert, cpuAlert]

/-- Closed instance of the amended C8: with the webhook configured and
no AI key, the single example alert is delivered as one direct
notification and the investigation agent is not invoked. -/
theorem C8_witness_concrete :
    run_tier0 (Config.mk none (some "hook") 8)
      env0 (fun _ => Except.error "unused")
      [("check_cpu_load", Except.ok [cpuAlert])] =
      Except.ok
        ((run_all_checks [("check_cpu_load", Except.ok [cpuAlert])]).map
          (fun a => notifySlack (Config.mk none (some "hook") 8)
            env0 a.severity a.check_name a.message), false) :=
  (C8_amended_direct_delivery (Config.mk none (some "hook") 8)
    env0 (fun _ => Except.error "unused")
    [("check_cpu_load", Except.ok [cpuAlert])] "hook"
    rfl rfl (by decide)).1

end GalaxySentinel
